import Mathlib

/-!
Shallow embedding of the PSD structural codec (src/psd.cpp) and proofs about
its claims.  Streams are modelled as lists of bytes (`List Nat`, each entry
0-255); machine integers are `Nat` with explicit `% 2^32` where the C++ code
performs 32-bit unsigned arithmetic.  Reading is modelled as `take`/`drop`
over the byte list; `std::string::resize` followed by a stream read is
modelled by `padZeroTo` (resize zero-fills, the read overwrites what is
available).
-/

namespace Psd

/-- Big-endian 16-bit value of the first two bytes of a list (missing bytes
read as 0). -/
def be16Val (l : List Nat) : Nat := l.getD 0 0 * 256 + l.getD 1 0

/-- Big-endian 32-bit value of the first four bytes of a list (missing bytes
read as 0). -/
def be32Val (l : List Nat) : Nat :=
  l.getD 0 0 * 2 ^ 24 + l.getD 1 0 * 2 ^ 16 + l.getD 2 0 * 2 ^ 8 + l.getD 3 0

/-- Big-endian 4-byte encoding of a value truncated to 32 bits, as written by
`be<uint32_t>`. -/
def be32Bytes (n : Nat) : List Nat :=
  [n / 2 ^ 24 % 256, n / 2 ^ 16 % 256, n / 2 ^ 8 % 256, n % 256]

/-- `resize n` then overwrite with the available bytes: the result always has
length `max n l.length`; when `l` came from `take n` the length is exactly
`n`, missing bytes are zero-filled. -/
def padZeroTo (n : Nat) (l : List Nat) : List Nat :=
  l ++ List.replicate (n - l.length) 0

/-- The four bytes of the magic `"8BIM"`. -/
def str8BIM : List Nat := [0x38, 0x42, 0x49, 0x4D]

/-- The four bytes of the magic `"8B64"`. -/
def str8B64 : List Nat := [0x38, 0x42, 0x36, 0x34]

/-- The four bytes of the magic `"8BPS"`. -/
def str8BPS : List Nat := [0x38, 0x42, 0x50, 0x53]

/-- The four bytes of the extra-data tag `"luni"`. -/
def strLuni : List Nat := [0x6C, 0x75, 0x6E, 0x69]

/-- The four bytes of the extra-data tag `"TySh"`. -/
def strTySh : List Nat := [0x54, 0x79, 0x53, 0x68]

/-- `padded_size<2>` from psd.cpp: `(size + 1) / 2 * 2` in 32-bit unsigned
arithmetic; the argument is already truncated to 32 bits at the call. -/
def padded_size2 (n : Nat) : Nat := (n + 1) % 2 ^ 32 / 2 * 2

/-- `ImageResourceBlock` (psd.cpp): resource id is kept as the two raw bytes
the code reads and writes untranslated. -/
structure ImageResourceBlock where
  image_resource_id : List Nat
  name : List Nat
  buffer : List Nat
  deriving DecidableEq

/-- `ImageResourceBlock::size` (psd.cpp:14-21):
`4 + 2 + padded_size<2>(1+name.size()) + 4 + padded_size<2>(buffer.size())`
in 32-bit unsigned arithmetic. -/
def irbSize (b : ImageResourceBlock) : Nat :=
  (4 + 2 + padded_size2 ((1 + b.name.length) % 2 ^ 32) + 4 +
    padded_size2 (b.buffer.length % 2 ^ 32)) % 2 ^ 32

/-- `ImageResourceBlock::read` (psd.cpp:23-60).  Returns the parsed block (or
`none` on a failed signature or failed debug size check, which is compiled in
because `PSD_DEBUG` is defined) together with the number of bytes consumed.
The one padding byte after the name is skipped when the name length is even;
the one after the payload when the payload length is odd. -/
def irbRead (s : List Nat) : Option ImageResourceBlock × Nat :=
  if s.take 4 = str8BIM then
    let s1 := s.drop 4
    let rid := s1.take 2
    let s2 := s1.drop 2
    let len := s2.headD 0
    let s3 := s2.drop 1
    let nm := padZeroTo len (s3.take len)
    let pn : Nat := if len % 2 = 0 then 1 else 0
    let s4 := s3.drop (len + pn)
    let blen := be32Val (s4.take 4)
    let s5 := s4.drop 4
    let buf := padZeroTo blen (s5.take blen)
    let pb : Nat := if blen % 2 = 1 then 1 else 0
    let consumed := 11 + len + pn + blen + pb
    let b : ImageResourceBlock := ⟨rid, nm, buf⟩
    if consumed = irbSize b then (some b, consumed) else (none, consumed)
  else (none, 4)

/-- Bytes emitted by `ImageResourceBlock::write` (psd.cpp:62-90): the name
length byte is `name.size()` truncated to `uint8_t`, the name padding byte is
emitted when that truncated length is even, the payload padding byte when the
payload length is odd. -/
def irbWriteBytes (b : ImageResourceBlock) : List Nat :=
  str8BIM ++ b.image_resource_id ++ [b.name.length % 256] ++ b.name ++
    (if b.name.length % 256 % 2 = 0 then [0] else []) ++
    be32Bytes b.buffer.length ++ b.buffer ++
    (if b.buffer.length % 2 = 1 then [0] else [])

/-- Result of `ImageResourceBlock::write`'s debug length check
(psd.cpp:84-87): the written byte count must equal `size()`. -/
def irbWriteOk (b : ImageResourceBlock) : Bool :=
  (irbWriteBytes b).length = irbSize b

/-- `ExtraData` (psd.cpp): signature and key are kept as the four raw bytes,
`length` is the stored 32-bit length field, `data` the payload buffer. -/
structure ExtraData where
  signature : List Nat
  key : List Nat
  length : Nat
  data : List Nat
  deriving DecidableEq

/-- `ExtraData::read` (psd.cpp:297-314): accepts signature `"8BIM"` or
`"8B64"`, then reads a 4-byte key, a 4-byte big-endian length and that many
payload bytes (`data.resize(length)` zero-fills, so the payload buffer always
has exactly `length` entries).  Returns the block (or `none` on a bad
signature) and the bytes consumed. -/
def edRead (s : List Nat) : Option ExtraData × Nat :=
  let sg := s.take 4
  if sg = str8BIM ∨ sg = str8B64 then
    let key := (s.drop 4).take 4
    let len := be32Val ((s.drop 8).take 4)
    let dat := padZeroTo len ((s.drop 12).take len)
    (some ⟨sg, key, len, dat⟩, 12 + len)
  else (none, 4)

/-- Bytes emitted by `ExtraData::write` (psd.cpp:344-354): signature, key,
then — after a padding byte is pushed onto an odd-length payload — the STORED
`length` field is written and the payload is resized back to `length` before
exactly `length` payload bytes are written.  When `length` still equals the
original payload size, the resize drops the padding byte again. -/
def edWriteBytes (ed : ExtraData) : List Nat :=
  let d1 := if ed.data.length % 2 = 1 then ed.data ++ [0] else ed.data
  let d2 := padZeroTo ed.length (d1.take ed.length)
  ed.signature ++ ed.key ++ be32Bytes ed.length ++ d2

/-- The UTF-16 code units decoded by `ExtraData::luni_read_name`
(psd.cpp:316-324): the first four payload bytes are a big-endian unit count,
each following 2-byte big-endian unit is appended to `wname` independently
(no surrogate-pair combining). -/
def luniUnits (data : List Nat) : List Nat :=
  (List.range (be32Val (data.take 4))).map
    (fun i => be16Val ((data.drop (4 + 2 * i)).take 2))

/-- The per-unit UTF-8 emission of `ExtraData::luni_read_name`
(psd.cpp:326-341): `wc < 0x80` gives one byte, `wc < 0x800` two bytes using
`(wc>>6)&0x1F` and `wc&0x3F`, otherwise three bytes using `(wc>>12)&0x0F`,
`(wc>>6)&0x3F` and `wc&0x3F`. -/
def utf8OfUnit (wc : Nat) : List Nat :=
  if wc < 0x80 then [wc]
  else if wc < 0x800 then [0xC0 + wc / 64 % 32, 0x80 + wc % 64]
  else [0xE0 + wc / 4096 % 16, 0x80 + wc / 64 % 64, 0x80 + wc % 64]

/-- `ExtraData::luni_read_name` (psd.cpp:316-342): the UTF-8 name it builds,
transcoding each UTF-16 unit independently. -/
def luni_read_name (data : List Nat) : List Nat :=
  (luniUnits data).flatMap utf8OfUnit

/-- `Layer::LayerMask` (psd.cpp): the declared length, the 18 raw bytes of
rectangle and flags, and the additional-data tail. -/
structure LayerMask where
  length : Nat
  rectflags : List Nat
  additional_data : List Nat
  deriving DecidableEq

/-- The additional-data tail size computed by `Layer::LayerMask::read`
(psd.cpp:211): `length - (4*4+2)` in 32-bit unsigned arithmetic, so a
declared length below 18 wraps around. -/
def maskTailSize (L : Nat) : Nat := (L + 2 ^ 32 - 18) % 2 ^ 32

/-- `Layer::LayerMask::read` (psd.cpp:202-216): reads the 4-byte big-endian
declared length; when it is nonzero, reads the 18 fixed bytes and then a
`length - 18` byte tail (32-bit unsigned subtraction).  Always returns
success together with the bytes consumed. -/
def layerMaskRead (s : List Nat) : LayerMask × Bool × Nat :=
  let L := be32Val (s.take 4)
  if L = 0 then (⟨L, [], []⟩, true, 4)
  else
    let rf := padZeroTo 18 ((s.drop 4).take 18)
    let rem := maskTailSize L
    let ad := padZeroTo rem ((s.drop 22).take rem)
    (⟨L, rf, ad⟩, true, 4 + 18 + rem)

/-- `Layer::LayerBlendingRanges::read` (psd.cpp:169-179): a 4-byte big-endian
length followed by that many opaque bytes; always succeeds. -/
def blendingRead (s : List Nat) : List Nat × Nat :=
  let n := be32Val (s.take 4)
  (padZeroTo n ((s.drop 4).take n), 4 + n)

/-- Channel-info entries read by `Layer::read` (psd.cpp:225-230): `n` entries
of a big-endian 16-bit id and 32-bit data length; also returns the bytes
consumed. -/
def channelInfosRead (s : List Nat) (n : Nat) : List (Nat × Nat) × Nat :=
  match n with
  | 0 => ([], 0)
  | m + 1 =>
    let ci := (be16Val (s.take 2), be32Val ((s.drop 2).take 4))
    let r := channelInfosRead (s.drop 6) m
    (ci :: r.1, 6 + r.2)

/-- The name-field handling of `Layer::read` (psd.cpp:245-262): a 1-byte
length prefix, that many name bytes, then 3/2/1/0 filler bytes skipped for
`name_size % 4` equal to 0/1/2/3.  Returns the name and the bytes consumed. -/
def layerNameRead (s : List Nat) : List Nat × Nat :=
  let nsz := s.headD 0
  (padZeroTo nsz ((s.drop 1).take nsz), 1 + nsz + (3 - nsz % 4))

/-- The name-field emission of `Layer::write` (psd.cpp:382-399).  The local
`name_size` is declared but NEVER assigned before being written, so the
emitted length byte is whatever garbage is on the stack — modelled by the
explicit `junk` argument.  The layer's name is then resized to that garbage
value and `junk % 256` name bytes plus `3 - junk % 256 % 4` filler bytes are
emitted.  Returns the emitted bytes and the mutated name. -/
def layerNameWrite (junk : Nat) (name : List Nat) : List Nat × List Nat :=
  let ns := junk % 256
  let newName := padZeroTo ns (name.take ns)
  ([ns] ++ newName ++ List.replicate (3 - ns % 4) 0, newName)

/-- The extra-data loop of `Layer::read` (psd.cpp:266-272): parse
`ExtraData` blocks while the bytes consumed since `extra_start_pos` are below
the declared `extra_data_length`.  `fuel` bounds the recursion; every
successful block consumes at least 12 bytes, so `declared + 1` fuel is never
exhausted. -/
def edLoop (s : List Nat) (pos start declared : Nat) (acc : List ExtraData)
    (fuel : Nat) : Bool × List ExtraData × Nat :=
  match fuel with
  | 0 => (false, acc, pos)
  | f + 1 =>
    if pos - start < declared then
      match edRead (s.drop pos) with
      | (some ed, n) => edLoop s (pos + n) start declared (acc ++ [ed]) f
      | (none, n) => (false, acc, pos + n)
    else (true, acc, pos)

/-- The scan over the parsed extra-data chain in `Layer::read`
(psd.cpp:274-287): a `"luni"` block rebuilds both names from its payload, a
`"TySh"` block sets the has-rich-text flag, other tags are ignored. -/
def layerScanEds (eds : List ExtraData) (wname utf8name : List Nat)
    (ht : Bool) : List Nat × List Nat × Bool :=
  match eds with
  | [] => (wname, utf8name, ht)
  | ed :: rest =>
    if ed.key = strLuni then
      layerScanEds rest (luniUnits ed.data) (luni_read_name ed.data) ht
    else if ed.key = strTySh then layerScanEds rest wname utf8name true
    else layerScanEds rest wname utf8name ht

/-- `Layer` (psd.cpp): the 16 raw rectangle bytes, channel count and infos,
the four raw blend-signature bytes, the 8 raw bytes of blend key and
opacity/clipping/flags/filler, the declared extra-data length, mask,
blending ranges, names and extra-data chain. -/
structure Layer where
  rect : List Nat
  num_channels : Nat
  channel_infos : List (Nat × Nat)
  blend_signature : List Nat
  blend_rest : List Nat
  extra_data_length : Nat
  mask : LayerMask
  blending_ranges : List Nat
  name : List Nat
  wname : List Nat
  utf8name : List Nat
  additional_extra_data : List ExtraData
  has_text : Bool
  deriving DecidableEq

/-- `Layer::read` (psd.cpp:218-295): rectangle and channel count (18 bytes),
channel infos, the 16-byte blend block whose signature must be `"8BIM"`,
then — starting the extra-data byte counter — mask, blending ranges, the
padded name, and the extra-data loop bounded by `extra_data_length`; finally
the scan deriving the Unicode name and the has-rich-text flag.  Returns the
layer (or `none` on a bad blend signature or a failed extra-data block) and
the bytes consumed. -/
def layerRead (s : List Nat) : Option Layer × Nat :=
  let rect := padZeroTo 16 (s.take 16)
  let nch := be16Val ((s.drop 16).take 2)
  let ci := channelInfosRead (s.drop 18) nch
  let p1 := 18 + ci.2
  let bsig := (s.drop p1).take 4
  let brest := (s.drop (p1 + 4)).take 8
  let edl := be32Val ((s.drop (p1 + 12)).take 4)
  if bsig = str8BIM then
    let p2 := p1 + 16
    let mr := layerMaskRead (s.drop p2)
    let p3 := p2 + mr.2.2
    let br := blendingRead (s.drop p3)
    let p4 := p3 + br.2
    let nr := layerNameRead (s.drop p4)
    let p5 := p4 + nr.2
    let el := edLoop s p5 p2 edl [] (edl + 1)
    let sc := layerScanEds el.2.1 nr.1 nr.1 false
    if el.1 then
      (some ⟨rect, nch, ci.1, bsig, brest, edl, mr.1, br.1, nr.1,
        sc.1, sc.2.1, el.2.1, sc.2.2⟩, el.2.2)
    else (none, el.2.2)
  else (none, p1 + 16)

/-- `LayerInfo` (psd.cpp): decoded layer count, merged-alpha flag and the
parsed layer records. -/
structure LayerInfo where
  num_layers : Nat
  has_merged_alpha_channel : Bool
  layers : List Layer
  deriving DecidableEq

/-- The sign decoding of the 2-byte layer-count field in `LayerInfo::read`
(psd.cpp:413-419).  Modelled from the spec: the field's type is declared in
psd.h (not in src/), which the spec describes as a signed big-endian 2-byte
count; a negative two's-complement value yields its absolute value together
with `true` for the merged-alpha flag. -/
def decodeLayerCount (b0 b1 : Nat) : Nat × Bool :=
  let u := b0 * 256 + b1
  if u < 0x8000 then (u, false) else (0x10000 - u, true)

/-- The layer loop of `LayerInfo::read` (psd.cpp:425-434): parse `n` layer
records in order, appending to the already-present list (the source never
clears `layers`); abort on the first failing record. -/
def layersLoop (s : List Nat) (pos : Nat) (n : Nat) (acc : List Layer) :
    Bool × List Layer × Nat :=
  match n with
  | 0 => (true, acc, pos)
  | m + 1 =>
    match layerRead (s.drop pos) with
    | (some l, c) => layersLoop s (pos + c) m (acc ++ [l])
    | (none, c) => (false, acc, pos + c)

/-- `LayerInfo::read` (psd.cpp:408-437): reads (and ignores) the 4-byte
declared length, decodes the 2-byte signed layer count — negative means the
merged-alpha flag is set and the count is the absolute value — then parses
that many layer records.  `prior` is the state of the `LayerInfo` object
before the call: the count and flag fields are assigned before the loop, so
they are reported even when a layer record fails, and the flag is only ever
set, never cleared. -/
def layerInfoRead (s : List Nat) (prior : LayerInfo) : Bool × LayerInfo × Nat :=
  let dc := decodeLayerCount ((s.drop 4).headD 0) ((s.drop 5).headD 0)
  let flag := prior.has_merged_alpha_channel || dc.2
  let lr := layersLoop s 6 dc.1 prior.layers
  (lr.1, ⟨dc.1, flag, lr.2.1⟩, lr.2.2)

/-- Outcome of a write routine: normal success, an error return (`false`),
or a fatal assertion abort. -/
inductive WriteOutcome where
  | ok
  | failed
  | fatalAssert
  deriving DecidableEq

/-- `LayerInfo::write` (psd.cpp:439-444): the body is `assert(false)` — a
fatal assertion that aborts unconditionally (NDEBUG is not defined in this
translation unit); the `return true` after it is unreachable.  The spec's
error taxonomy (§7) classifies this as UnsupportedFeature. -/
def layerInfoWrite (_li : LayerInfo) : WriteOutcome :=
  WriteOutcome.fatalAssert

/-- The document header (psd.cpp reads it as one raw block).  Modelled from
the spec: the field layout of `struct Header` lives in psd.h (not in src/);
spec §6 gives 4-byte magic, 2-byte version, 6 reserved bytes, 2-byte channel
count, 4-byte width, 4-byte height, 2-byte depth, 2-byte color mode, all
multi-byte integers big-endian. -/
structure Header where
  signature : List Nat
  version : Nat
  reserved : List Nat
  num_channels : Nat
  width : Nat
  height : Nat
  bit_depth : Nat
  color_mode : Nat
  deriving DecidableEq

/-- Decode the 26 header bytes into the header fields (layout modelled from
spec §6, see `Header`). -/
def parseHeader (bytes : List Nat) : Header :=
  ⟨bytes.take 4, be16Val ((bytes.drop 4).take 2), (bytes.drop 6).take 6,
    be16Val ((bytes.drop 12).take 2), be32Val ((bytes.drop 14).take 4),
    be32Val ((bytes.drop 18).take 4), be16Val ((bytes.drop 22).take 2),
    be16Val ((bytes.drop 24).take 2)⟩

/-- The `psd` document object: header, image resources, layer info and the
validity flag.  The flag's initial value is modelled from the spec (psd.h is
not in src/): a fresh document is not valid. -/
structure PsdDoc where
  header : Header
  image_resources : List ImageResourceBlock
  layer_info : LayerInfo
  valid : Bool
  deriving DecidableEq

/-- A default-initialized document. -/
def psd0 : PsdDoc := ⟨parseHeader [], [], ⟨0, false, []⟩, false⟩

/-- `psd::read_header` (psd.cpp:111-134): seek to offset 0, read the 26
header bytes into the header member (the member is overwritten even when the
checks fail), then fail if the signature is not `"8BPS"`, then fail if the
version is not 1.  Returns the header, the success flag, and the stream
position afterwards (always 26). -/
def psdReadHeader (s : List Nat) : Header × Bool × Nat :=
  let h := parseHeader (s.take 26)
  (h, if h.signature = str8BPS then (if h.version = 1 then true else false)
    else false, 26)

/-- `psd::read_color_mode` (psd.cpp:136-146): read a 4-byte count; only a
zero count (all four bytes zero) is supported. -/
def psdReadColorMode (s : List Nat) (pos : Nat) : Bool × Nat :=
  (if (s.drop pos).take 4 = [0, 0, 0, 0] then true else false, pos + 4)

/-- The block loop of `psd::read_image_resources` (psd.cpp:159-165): parse
image resource blocks while the bytes consumed since `start` are below the
declared section length; abort on a failing block, keeping the blocks pushed
so far.  Every successful block consumes at least 11 bytes, so `declared + 1`
fuel is never exhausted. -/
def irbLoop (s : List Nat) (pos start declared : Nat)
    (acc : List ImageResourceBlock) (fuel : Nat) :
    Bool × List ImageResourceBlock × Nat :=
  match fuel with
  | 0 => (false, acc, pos)
  | f + 1 =>
    if pos - start < declared then
      match irbRead (s.drop pos) with
      | (some b, n) => irbLoop s (pos + n) start declared (acc ++ [b]) f
      | (none, n) => (false, acc, pos + n)
    else (true, acc, pos)

/-- `psd::read_image_resources` (psd.cpp:148-167): read the 4-byte big-endian
section length, clear the resource list, then run the block loop. -/
def psdReadImageResources (s : List Nat) (pos : Nat) :
    Bool × List ImageResourceBlock × Nat :=
  let declared := be32Val ((s.drop pos).take 4)
  irbLoop s (pos + 4) (pos + 4) declared [] (declared + 1)

/-- `psd::read_layers_and_masks` (psd.cpp:446-471): read the 4-byte
big-endian section length (0 means success with nothing parsed), else
delegate to `LayerInfo::read` and afterwards skip up to the declared length
(the trailing global-mask bytes are read and discarded). -/
def psdReadLayersAndMasks (s : List Nat) (pos : Nat) (prior : LayerInfo) :
    Bool × LayerInfo × Nat :=
  let L := be32Val ((s.drop pos).take 4)
  if L = 0 then (true, prior, pos + 4)
  else
    let lr := layerInfoRead (s.drop (pos + 4)) prior
    let p2 := pos + 4 + lr.2.2
    if lr.1 then (true, lr.2.1, if p2 - pos < L then pos + L else p2)
    else (false, lr.2.1, p2)

/-- `psd::load` (psd.cpp:96-109): run `read_header`, `read_color_mode`,
`read_image_resources`, `read_layers_and_masks` in order, aborting at the
first failure; only when all four succeed is `valid_` set to `true`.  The
flag is never assigned `false` by `load`.  Returns the result, the updated
document (members mutated by the stages that ran are updated even on
failure), and the final stream position. -/
def psdLoad (s : List Nat) (p : PsdDoc) : Bool × PsdDoc × Nat :=
  let hr := psdReadHeader s
  let p1 : PsdDoc := ⟨hr.1, p.image_resources, p.layer_info, p.valid⟩
  if hr.2.1 then
    let cr := psdReadColorMode s hr.2.2
    if cr.1 then
      let ir := psdReadImageResources s cr.2
      let p3 : PsdDoc := ⟨hr.1, ir.2.1, p.layer_info, p.valid⟩
      if ir.1 then
        let lr := psdReadLayersAndMasks s ir.2.2 p.layer_info
        if lr.1 then (true, ⟨hr.1, ir.2.1, lr.2.1, true⟩, lr.2.2)
        else (false, ⟨hr.1, ir.2.1, lr.2.1, p.valid⟩, lr.2.2)
      else (false, p3, ir.2.2)
    else (false, p1, cr.2)
  else (false, p1, hr.2.2)

/-- `psd::operator bool` (psd.cpp:511-514): returns the validity flag. -/
def psdToBool (p : PsdDoc) : Bool := p.valid

/-- A minimal well-formed document stream: valid header (version 1, all other
fields zero), empty color-mode table, zero-length image-resource section,
zero-length layers-and-masks section. -/
def goodBytes : List Nat :=
  [0x38, 0x42, 0x50, 0x53, 0, 1, 0, 0, 0, 0, 0, 0, 0, 0, 0, 0, 0, 0,
   0, 0, 0, 0, 0, 0, 0, 0] ++ [0, 0, 0, 0] ++ [0, 0, 0, 0] ++ [0, 0, 0, 0]

/-- A stream whose first four bytes are not the `"8BPS"` magic. -/
def badBytes : List Nat := [1, 2, 3, 4]

/-- A well-formed block with empty name and the maximal odd 32-bit payload
length, exhibiting the 32-bit wrap of `size()`. -/
def irbHuge : ImageResourceBlock :=
  ⟨[0, 0], [], List.replicate (2 ^ 32 - 1) 0⟩

theorem padZeroTo_of_length_eq {n : Nat} {l : List Nat} (h : l.length = n) :
    padZeroTo n l = l := by
  simp [padZeroTo, h]

theorem padZeroTo_length {n : Nat} {l : List Nat} (h : l.length ≤ n) :
    (padZeroTo n l).length = n := by
  simp [padZeroTo]; omega

theorem be32Val_be32Bytes (n : Nat) : be32Val (be32Bytes n) = n % 2 ^ 32 := by
  simp [be32Val, be32Bytes]; omega

/-- Claim C2: `luni_read_name` takes the first 4 payload bytes as a big-endian
unit count, reads that many 2-byte big-endian UTF-16 units and transcodes each
unit independently (1 byte below 0x80, 2 bytes below 0x800, else 3 bytes),
never emitting a 4-byte sequence for a surrogate pair; the payload for U+03A9
decodes to 0xCE 0xA9 and the payload for U+0041 to 0x41. -/
theorem c2_luni_transcoding :
    (∀ wc : Nat, wc < 0x10000 →
      utf8OfUnit wc =
        (if wc < 0x80 then [wc]
         else if wc < 0x800 then [0xC0 + wc / 64, 0x80 + wc % 64]
         else [0xE0 + wc / 4096, 0x80 + wc / 64 % 64, 0x80 + wc % 64]) ∧
      (utf8OfUnit wc).length ≤ 3) ∧
    (∀ data : List Nat,
      luni_read_name data = (luniUnits data).flatMap utf8OfUnit ∧
      (luniUnits data).length = be32Val (data.take 4)) ∧
    luni_read_name [0, 0, 0, 1, 0x03, 0xA9] = [0xCE, 0xA9] ∧
    luni_read_name [0, 0, 0, 1, 0x00, 0x41] = [0x41] ∧
    luni_read_name [0, 0, 0, 2, 0xD8, 0x34, 0xDD, 0x1E] =
      utf8OfUnit 0xD834 ++ utf8OfUnit 0xDD1E ∧
    (utf8OfUnit 0xD834).length = 3 ∧ (utf8OfUnit 0xDD1E).length = 3 := by
  refine ⟨?_, ?_, by decide, by decide, by decide, by decide, by decide⟩
  · intro wc h
    constructor
    · unfold utf8OfUnit
      split_ifs with h1 h2
      · rfl
      · have hd : wc / 64 < 32 := by omega
        rw [Nat.mod_eq_of_lt hd]
      · have hd : wc / 4096 < 16 := by omega
        rw [Nat.mod_eq_of_lt hd]
    · unfold utf8OfUnit
      split_ifs <;> simp
  · intro data
    exact ⟨rfl, by simp [luniUnits]⟩

/-- Witness for C2 at the concrete unit U+03A9. -/
theorem c2_witness : (0x3A9 : Nat) < 0x10000 ∧ (utf8OfUnit 0x3A9).length ≤ 3 :=
  ⟨by decide, (c2_luni_transcoding.1 0x3A9 (by decide)).2⟩

/-- Claim C4 (code bug): `Layer::write` (psd.cpp:382-385) writes the local
`name_size` WITHOUT ever assigning it — the emitted length byte is stack
garbage (`junk`), the layer's name is resized to that garbage, and the filler
count follows the garbage, so the emitted name field does not mirror the
layout `Layer::read` consumes.  With residual value 0 the name `"A"` is
emitted as `[0,0,0,0]` and reads back as the empty name, while the layout
`read` expects for `"A"` is `[1,0x41,0,0]`. -/
theorem c4_uninitialized_name_size :
    ((layerNameWrite 0 [0x41]).1).headD 9 = 0 % 256 ∧
    ((layerNameWrite 7 [0x41]).1).headD 9 = 7 % 256 ∧
    (layerNameWrite 0 [0x41]).1 = [0, 0, 0, 0] ∧
    layerNameRead (layerNameWrite 0 [0x41]).1 = ([], 4) ∧
    layerNameRead [1, 0x41, 0, 0] = ([0x41], 4) ∧
    ([] : List Nat) ≠ [0x41] := by
  refine ⟨by decide, by decide, by decide, by decide, by decide, by decide⟩

/-- Claim C7 (code bug): after a successful `ExtraData::read` the payload
buffer has exactly the declared length, and `ExtraData::write` emits exactly
`length` payload bytes — but for an odd declared length the padding byte
pushed by write is immediately truncated away by `data.resize(length)`
(psd.cpp:348-351), so the emitted block is NOT padded to even length: the
13-byte output below ends right after the single payload byte 0x07. -/
theorem c7_extra_data_write_pad_dropped :
    edWriteBytes ⟨str8BIM, [0x61, 0x62, 0x63, 0x64], 1, [0x07]⟩ =
      [0x38, 0x42, 0x49, 0x4D, 0x61, 0x62, 0x63, 0x64, 0, 0, 0, 1, 0x07] ∧
    (edWriteBytes ⟨str8BIM, [0x61, 0x62, 0x63, 0x64], 1, [0x07]⟩).length % 2 = 1 ∧
    (∀ (s : List Nat) (ed : ExtraData) (n : Nat), edRead s = (some ed, n) →
      ed.data.length = ed.length) := by
  refine ⟨by decide, by decide, ?_⟩
  intro s ed n h
  simp only [edRead] at h
  by_cases hs : s.take 4 = str8BIM ∨ s.take 4 = str8B64
  · rw [if_pos hs] at h
    simp only [Prod.mk.injEq, Option.some.injEq] at h
    obtain ⟨h1, -⟩ := h
    subst h1
    exact padZeroTo_length (List.length_take_le _ _)
  · rw [if_neg hs] at h
    simp at h

/-- Witness for C7's read clause at a concrete well-formed block. -/
theorem c7_witness :
    edRead [0x38, 0x42, 0x49, 0x4D, 0x61, 0x62, 0x63, 0x64, 0, 0, 0, 1, 0x07] =
      (some ⟨str8BIM, [0x61, 0x62, 0x63, 0x64], 1, [0x07]⟩, 13) ∧
    (ExtraData.mk str8BIM [0x61, 0x62, 0x63, 0x64] 1 [0x07]).data.length =
      (ExtraData.mk str8BIM [0x61, 0x62, 0x63, 0x64] 1 [0x07]).length :=
  ⟨by decide,
    c7_extra_data_write_pad_dropped.2.2
      [0x38, 0x42, 0x49, 0x4D, 0x61, 0x62, 0x63, 0x64, 0, 0, 0, 1, 0x07]
      ⟨str8BIM, [0x61, 0x62, 0x63, 0x64], 1, [0x07]⟩ 13 (by decide)⟩

/-- Claim C8: every call to `LayerInfo::write` is an unconditional fatal
assertion (psd.cpp:439-444) and never completes as a successful write; the
spec's error taxonomy classifies writing a Layer Info Section as
UnsupportedFeature. -/
theorem c8_layer_info_write_fatal :
    ∀ li : LayerInfo, layerInfoWrite li = WriteOutcome.fatalAssert ∧
      layerInfoWrite li ≠ WriteOutcome.ok :=
  fun _ => ⟨rfl, by simp [layerInfoWrite]⟩

/-- Witness for C8 at a concrete empty Layer Info Section. -/
theorem c8_witness :
    layerInfoWrite ⟨0, false, []⟩ = WriteOutcome.fatalAssert ∧
    layerInfoWrite ⟨0, false, []⟩ ≠ WriteOutcome.ok :=
  c8_layer_info_write_fatal ⟨0, false, []⟩

/-- Claim C9: a negative 2-byte signed layer count yields its absolute value
and sets the merged-alpha flag (−3, bytes 0xFF 0xFD, gives `num_layers = 3`
and the flag `true`, also through `LayerInfo::read`); a non-negative count is
taken as-is and leaves the flag unset. -/
theorem c9_layer_count_sign :
    (layerInfoRead [0, 0, 0, 0, 0xFF, 0xFD] ⟨0, false, []⟩).2.1.num_layers = 3 ∧
    (layerInfoRead [0, 0, 0, 0, 0xFF, 0xFD]
      ⟨0, false, []⟩).2.1.has_merged_alpha_channel = true ∧
    decodeLayerCount 0xFF 0xFD = (3, true) ∧
    (∀ b0 b1 : Nat, b0 < 256 → b1 < 256 →
      (b0 * 256 + b1 < 0x8000 →
        decodeLayerCount b0 b1 = (b0 * 256 + b1, false)) ∧
      (0x8000 ≤ b0 * 256 + b1 →
        decodeLayerCount b0 b1 = (0x10000 - (b0 * 256 + b1), true))) := by
  refine ⟨by decide, by decide, by decide, ?_⟩
  intro b0 b1 h0 h1
  constructor
  · intro h
    simp [decodeLayerCount, h]
  · intro h
    have : ¬ (b0 * 256 + b1 < 0x8000) := by omega
    simp [decodeLayerCount, this]

/-- Witness for C9 at the bytes of −3 and of +5. -/
theorem c9_witness :
    ((0xFF : Nat) < 256 ∧ (0xFD : Nat) < 256 ∧ (0x8000 : Nat) ≤ 0xFF * 256 + 0xFD ∧
      decodeLayerCount 0xFF 0xFD = (0x10000 - (0xFF * 256 + 0xFD), true)) ∧
    ((0 : Nat) * 256 + 5 < 0x8000 ∧ decodeLayerCount 0 5 = (0 * 256 + 5, false)) :=
  ⟨⟨by decide, by decide, by decide,
      (c9_layer_count_sign.2.2.2 0xFF 0xFD (by decide) (by decide)).2 (by decide)⟩,
    ⟨by decide,
      (c9_layer_count_sign.2.2.2 0 5 (by decide) (by decide)).1 (by decide)⟩⟩

/-- Claim C10: `Layer::LayerMask::read` always returns success; for a nonzero
declared length `L` the additional-data tail size is `L - 18` computed in
32-bit unsigned arithmetic, so for `0 < L < 18` it wraps to at least
`2^32 - 18`; there is no error branch. -/
theorem c10_mask_tail_underflow :
    ∀ s : List Nat,
      (layerMaskRead s).2.1 = true ∧
      (0 < be32Val (s.take 4) →
        (layerMaskRead s).1.additional_data.length =
          maskTailSize (be32Val (s.take 4)) ∧
        (layerMaskRead s).2.2 = 4 + 18 + maskTailSize (be32Val (s.take 4)) ∧
        maskTailSize (be32Val (s.take 4)) =
          (be32Val (s.take 4) + 2 ^ 32 - 18) % 2 ^ 32 ∧
        (be32Val (s.take 4) < 18 →
          2 ^ 32 - 18 ≤ maskTailSize (be32Val (s.take 4)))) := by
  intro s
  unfold layerMaskRead
  by_cases hz : be32Val (s.take 4) = 0
  · simp [hz]
  · simp only [hz, if_neg hz]
    refine ⟨rfl, fun _ => ⟨?_, rfl, rfl, fun hlt => ?_⟩⟩
    · exact padZeroTo_length (List.length_take_le _ _)
    · unfold maskTailSize
      omega

/-- Witness for C10 at declared mask length 1. -/
theorem c10_witness :
    0 < be32Val ([0, 0, 0, 1].take 4) ∧
    (layerMaskRead [0, 0, 0, 1]).2.1 = true ∧
    (layerMaskRead [0, 0, 0, 1]).2.2 =
      4 + 18 + maskTailSize (be32Val ([0, 0, 0, 1].take 4)) ∧
    maskTailSize 1 = 2 ^ 32 - 17 :=
  ⟨by decide, (c10_mask_tail_underflow [0, 0, 0, 1]).1,
    ((c10_mask_tail_underflow [0, 0, 0, 1]).2 (by decide)).2.1, by decide⟩

theorem parseHeader_take26_signature (s : List Nat) :
    (parseHeader (s.take 26)).signature = s.take 4 := by
  simp [parseHeader, List.take_take]

theorem parseHeader_take26_version (s : List Nat) :
    (parseHeader (s.take 26)).version = be16Val ((s.drop 4).take 2) := by
  simp only [parseHeader]
  rw [List.drop_take]
  simp [List.take_take]

theorem psdReadHeader_ok (s : List Nat) :
    (psdReadHeader s).2.1 =
      (if s.take 4 = str8BPS then
        (if be16Val ((s.drop 4).take 2) = 1 then true else false)
      else false) := by
  simp only [psdReadHeader]
  rw [parseHeader_take26_signature, parseHeader_take26_version]

/-- Claim C5: a stream whose first 4 bytes are not `"8BPS"` fails inside
`read_header`: `load` returns false, the stream position stays at 26 (only
the header bytes were consumed) and no later stage runs or modifies the
document beyond the header member; a stream with the correct signature but a
version field other than 1 fails the same way, after the signature check. -/
theorem c5_header_rejection :
    ∀ (s : List Nat) (p : PsdDoc),
      (s.take 4 ≠ str8BPS →
        (psdReadHeader s).2.1 = false ∧
        psdLoad s p =
          (false, ⟨(psdReadHeader s).1, p.image_resources, p.layer_info,
            p.valid⟩, 26)) ∧
      (s.take 4 = str8BPS → be16Val ((s.drop 4).take 2) ≠ 1 →
        (psdReadHeader s).2.1 = false ∧
        psdLoad s p =
          (false, ⟨(psdReadHeader s).1, p.image_resources, p.layer_info,
            p.valid⟩, 26)) := by
  intro s p
  constructor
  · intro h
    have hf : (psdReadHeader s).2.1 = false := by
      rw [psdReadHeader_ok, if_neg h]
    refine ⟨hf, ?_⟩
    simp only [psdLoad, hf]
    rfl
  · intro h hv
    have hf : (psdReadHeader s).2.1 = false := by
      rw [psdReadHeader_ok, if_pos h, if_neg hv]
    refine ⟨hf, ?_⟩
    simp only [psdLoad, hf]
    rfl

/-- Witness for C5: a wrong-magic stream and a wrong-version stream. -/
theorem c5_witness :
    (badBytes.take 4 ≠ str8BPS ∧
      psdLoad badBytes psd0 =
        (false, ⟨(psdReadHeader badBytes).1, psd0.image_resources,
          psd0.layer_info, psd0.valid⟩, 26)) ∧
    ([0x38, 0x42, 0x50, 0x53, 0, 2].take 4 = str8BPS ∧
      be16Val (([0x38, 0x42, 0x50, 0x53, 0, 2].drop 4).take 2) ≠ 1 ∧
      psdLoad [0x38, 0x42, 0x50, 0x53, 0, 2] psd0 =
        (false, ⟨(psdReadHeader [0x38, 0x42, 0x50, 0x53, 0, 2]).1,
          psd0.image_resources, psd0.layer_info, psd0.valid⟩, 26)) :=
  ⟨⟨by decide, ((c5_header_rejection badBytes psd0).1 (by decide)).2⟩,
    ⟨by decide, by decide,
      ((c5_header_rejection [0x38, 0x42, 0x50, 0x53, 0, 2] psd0).2
        (by decide) (by decide)).2⟩⟩

/-- Claim C3 (counterexample): after a successful load, a subsequent FAILING
load leaves the validity flag `true` — `psd::load` never assigns `false` to
`valid_` — contradicting the claim that the flag is false after a failing
load that follows a successful one. -/
theorem c3_counterexample :
    (psdLoad goodBytes psd0).1 = true ∧
    (psdLoad badBytes (psdLoad goodBytes psd0).2.1).1 = false ∧
    (psdLoad badBytes (psdLoad goodBytes psd0).2.1).2.1.valid = true ∧
    psdToBool (psdLoad badBytes (psdLoad goodBytes psd0).2.1).2.1 = true := by
  refine ⟨by decide, by decide, by decide, by decide⟩

/-- Claim C3 (amended): `load` sets the validity flag to true exactly when
all four stages succeed in order, and never assigns false, so after any load
the flag is the disjunction of the load's success with the previous flag;
the boolean conversion returns exactly the flag. -/
theorem c3_amended_valid_flag :
    ∀ (s : List Nat) (p : PsdDoc),
      (psdLoad s p).2.1.valid = ((psdLoad s p).1 || p.valid) ∧
      psdToBool (psdLoad s p).2.1 = (psdLoad s p).2.1.valid ∧
      ((psdLoad s p).1 = true ↔
        (psdReadHeader s).2.1 = true ∧
        (psdReadColorMode s (psdReadHeader s).2.2).1 = true ∧
        (psdReadImageResources s
          (psdReadColorMode s (psdReadHeader s).2.2).2).1 = true ∧
        (psdReadLayersAndMasks s
          (psdReadImageResources s
            (psdReadColorMode s (psdReadHeader s).2.2).2).2.2
          p.layer_info).1 = true) := by
  intro s p
  simp only [psdLoad, psdToBool]
  split_ifs with h1 h2 h3 h4 <;> simp_all

/-- Claim C1 (amended): for blocks whose total encoded size fits in 32 bits,
read after write reproduces the block exactly, write after read reproduces
the bytes, and `size()` equals the byte count consumed by `read` and
produced by `write`. -/
theorem c1_image_resource_roundtrip :
    ∀ b : ImageResourceBlock, b.image_resource_id.length = 2 →
      b.name.length ≤ 255 → 13 + b.name.length + b.buffer.length < 2 ^ 32 →
      irbRead (irbWriteBytes b) = (some b, (irbWriteBytes b).length) ∧
      (irbWriteBytes b).length = irbSize b ∧
      irbWriteOk b = true ∧
      (irbRead (irbWriteBytes b)).1.map irbWriteBytes =
        some (irbWriteBytes b) := by
  intro b hid hname htot
  have hmod : b.name.length % 256 = b.name.length := Nat.mod_eq_of_lt (by omega)
  have hBmod : b.buffer.length % 2 ^ 32 = b.buffer.length :=
    Nat.mod_eq_of_lt (by omega)
  have hpadn : (if b.name.length % 2 = 0 then ([0] : List Nat) else []).length =
      (if b.name.length % 2 = 0 then 1 else 0) := by split_ifs <;> rfl
  have hpadb : (if b.buffer.length % 2 = 1 then ([0] : List Nat) else []).length =
      (if b.buffer.length % 2 = 1 then 1 else 0) := by split_ifs <;> rfl
  have e0 : irbWriteBytes b =
      str8BIM ++ (b.image_resource_id ++ ([b.name.length] ++ (b.name ++
        ((if b.name.length % 2 = 0 then [0] else []) ++
          (be32Bytes b.buffer.length ++ (b.buffer ++
            (if b.buffer.length % 2 = 1 then [0] else []))))))) := by
    simp only [irbWriteBytes, hmod, List.append_assoc]
  have hlen : (irbWriteBytes b).length =
      11 + b.name.length + (if b.name.length % 2 = 0 then 1 else 0) +
        b.buffer.length + (if b.buffer.length % 2 = 1 then 1 else 0) := by
    rw [e0]
    simp only [List.length_append, hpadn, hpadb]
    simp [str8BIM, be32Bytes]
    split_ifs <;> omega
  have hsize : irbSize b =
      11 + b.name.length + (if b.name.length % 2 = 0 then 1 else 0) +
        b.buffer.length + (if b.buffer.length % 2 = 1 then 1 else 0) := by
    have h1 : padded_size2 ((1 + b.name.length) % 2 ^ 32) =
        1 + b.name.length + (if b.name.length % 2 = 0 then 1 else 0) := by
      split_ifs with h <;> (unfold padded_size2) <;> omega
    have h2 : padded_size2 (b.buffer.length % 2 ^ 32) =
        b.buffer.length + (if b.buffer.length % 2 = 1 then 1 else 0) := by
      split_ifs with h <;> (unfold padded_size2) <;> omega
    rw [irbSize, h1, h2]
    split_ifs <;> omega
  have f1 : ∀ X : List Nat, (str8BIM ++ X).take 4 = str8BIM :=
    fun X => List.take_left' rfl
  have f2 : ∀ X : List Nat, (str8BIM ++ X).drop 4 = X :=
    fun X => List.drop_left' rfl
  have hread : irbRead (irbWriteBytes b) =
      (some b, 11 + b.name.length + (if b.name.length % 2 = 0 then 1 else 0) +
        b.buffer.length + (if b.buffer.length % 2 = 1 then 1 else 0)) := by
    rw [e0]
    simp only [irbRead, f1, f2]
    simp only [eq_self_iff_true, ite_true]
    rw [List.take_left' hid, List.drop_left' hid]
    simp only [List.singleton_append, List.headD_cons, List.drop_one,
      List.tail_cons]
    rw [List.take_left' rfl, padZeroTo_of_length_eq rfl]
    rw [List.drop_append, List.drop_left' hpadn]
    rw [List.take_left' (by simp [be32Bytes] : (be32Bytes b.buffer.length).length = 4)]
    rw [be32Val_be32Bytes, hBmod]
    rw [List.drop_left' (by simp [be32Bytes] : (be32Bytes b.buffer.length).length = 4)]
    rw [List.take_left' rfl, padZeroTo_of_length_eq rfl]
    rw [if_pos (show 11 + b.name.length +
        (if b.name.length % 2 = 0 then 1 else 0) + b.buffer.length +
        (if b.buffer.length % 2 = 1 then 1 else 0) =
        irbSize ⟨b.image_resource_id, b.name, b.buffer⟩ from hsize.symm)]
  refine ⟨?_, ?_, ?_, ?_⟩
  · rw [hread, hlen]
  · rw [hlen, hsize]
  · simp [irbWriteOk, hlen, hsize]
  · rw [hread]
    rfl

theorem snd_ite_pair {α : Type} (c : Prop) [inst : Decidable c] (x y : α)
    (n : Nat) : (if c then (x, n) else (y, n)).2 = n := by
  split <;> rfl

theorem irbWriteBytes_length (b : ImageResourceBlock)
    (hid : b.image_resource_id.length = 2) (h : b.name.length ≤ 255) :
    (irbWriteBytes b).length =
      11 + b.name.length + (if b.name.length % 2 = 0 then 1 else 0) +
        b.buffer.length + (if b.buffer.length % 2 = 1 then 1 else 0) := by
  have hmod : b.name.length % 256 = b.name.length := Nat.mod_eq_of_lt (by omega)
  simp only [irbWriteBytes, List.length_append, hmod, hid]
  split_ifs <;> simp [str8BIM, be32Bytes] <;> omega

theorem irbRead_consumed (s : List Nat) (h : s.take 4 = str8BIM) :
    (irbRead s).2 =
      11 + ((s.drop 4).drop 2).headD 0 +
        (if ((s.drop 4).drop 2).headD 0 % 2 = 0 then 1 else 0) +
        be32Val (((((s.drop 4).drop 2).drop 1).drop
          (((s.drop 4).drop 2).headD 0 +
            if ((s.drop 4).drop 2).headD 0 % 2 = 0 then 1 else 0)).take 4) +
        (if be32Val (((((s.drop 4).drop 2).drop 1).drop
          (((s.drop 4).drop 2).headD 0 +
            if ((s.drop 4).drop 2).headD 0 % 2 = 0 then 1 else 0)).take 4) % 2 = 1
          then 1 else 0) := by
  simp only [irbRead]
  rw [if_pos h]
  exact snd_ite_pair _ _ _ _

theorem parity_one_plus (n : Nat) :
    (if n % 2 = 0 then (1 : Nat) else 0) =
      (if (1 + n) % 2 = 1 then 1 else 0) := by
  by_cases h : n % 2 = 0
  · rw [if_pos h, if_pos (by omega)]
  · rw [if_neg h, if_neg (by omega)]

/-- Claim C1 (counterexample): for the well-formed block with empty name and
payload length `2^32 - 1`, `size()` computes 12 in wrapped 32-bit arithmetic
while `write` produces `2^32 + 12` bytes, so `size()` does not equal the byte
count produced by `write` (and `read`'s debug size check fails on such
input). -/
theorem c1_counterexample :
    (irbWriteBytes irbHuge).length = 2 ^ 32 + 12 ∧ irbSize irbHuge = 12 ∧
    (irbWriteBytes irbHuge).length ≠ irbSize irbHuge := by
  have hb : (List.replicate (2 ^ 32 - 1) (0 : Nat)).length = 2 ^ 32 - 1 :=
    List.length_replicate _ _
  have hname : irbHuge.name = [] := rfl
  have hbuf : irbHuge.buffer = List.replicate (2 ^ 32 - 1) 0 := rfl
  have h1 : (irbWriteBytes irbHuge).length = 2 ^ 32 + 12 := by
    rw [irbWriteBytes_length irbHuge rfl (by rw [hname]; exact Nat.zero_le 255)]
    rw [hname, hbuf, hb, List.length_nil]
    norm_num
  have h2 : irbSize irbHuge = 12 := by
    rw [irbSize, hname, hbuf, hb, List.length_nil]
    simp only [padded_size2]
    norm_num
  exact ⟨h1, h2, by omega⟩

/-- Witness for C1 at a concrete block (id `[0,1]`, name `"A"`, payload two
bytes). -/
theorem c1_witness :
    (ImageResourceBlock.mk [0, 1] [0x41] [0x42, 0x43]).image_resource_id.length
        = 2 ∧
    (ImageResourceBlock.mk [0, 1] [0x41] [0x42, 0x43]).name.length ≤ 255 ∧
    13 + (ImageResourceBlock.mk [0, 1] [0x41] [0x42, 0x43]).name.length +
      (ImageResourceBlock.mk [0, 1] [0x41] [0x42, 0x43]).buffer.length
        < 2 ^ 32 ∧
    irbRead (irbWriteBytes ⟨[0, 1], [0x41], [0x42, 0x43]⟩) =
      (some ⟨[0, 1], [0x41], [0x42, 0x43]⟩,
        (irbWriteBytes ⟨[0, 1], [0x41], [0x42, 0x43]⟩).length) :=
  ⟨by decide, by decide, by decide,
    (c1_image_resource_roundtrip ⟨[0, 1], [0x41], [0x42, 0x43]⟩
      (by decide) (by decide) (by decide)).1⟩

/-- Claim C6 (counterexample): for name length 0 the quantity `1 + 0` is odd,
so the claim's rule "pad after the name when `(1+name_length)` is even"
predicts no padding byte and an 11-byte block; the code emits and consumes a
12-byte block — the padding byte IS present exactly when `(1+name_length)` is
odd. -/
theorem c6_counterexample :
    (1 + (0 : Nat)) % 2 ≠ 0 ∧
    (irbWriteBytes ⟨[0, 0], [], []⟩).length = 12 ∧
    irbRead (irbWriteBytes ⟨[0, 0], [], []⟩) = (some ⟨[0, 0], [], []⟩, 12) ∧
    (irbWriteBytes ⟨[0, 0], [], []⟩).length ≠ 4 + 2 + (1 + 0) + (4 + 0) := by
  refine ⟨by decide, by decide, by decide, by decide⟩

/-- Claim C6 (amended): the padding byte after an Image Resource Block's name
is emitted by `write` and skipped by `read` when `(1 + name_length)` is ODD
(equivalently, when the name length is even); the padding byte after the
payload is handled when the payload length is odd. -/
theorem c6_amended_padding_parity :
    ∀ b : ImageResourceBlock, b.image_resource_id.length = 2 →
      b.name.length ≤ 255 →
      ((irbWriteBytes b).length =
        11 + b.name.length +
          (if (1 + b.name.length) % 2 = 1 then 1 else 0) +
          b.buffer.length + (if b.buffer.length % 2 = 1 then 1 else 0)) ∧
      (∀ s : List Nat, s.take 4 = str8BIM →
        (irbRead s).2 =
          11 + ((s.drop 4).drop 2).headD 0 +
            (if (1 + ((s.drop 4).drop 2).headD 0) % 2 = 1 then 1 else 0) +
            be32Val (((((s.drop 4).drop 2).drop 1).drop
              (((s.drop 4).drop 2).headD 0 +
                if ((s.drop 4).drop 2).headD 0 % 2 = 0 then 1 else 0)).take 4) +
            (if be32Val (((((s.drop 4).drop 2).drop 1).drop
              (((s.drop 4).drop 2).headD 0 +
                if ((s.drop 4).drop 2).headD 0 % 2 = 0 then 1 else 0)).take 4) %
                2 = 1 then 1 else 0)) := by
  intro b hid hname
  constructor
  · rw [irbWriteBytes_length b hid hname, parity_one_plus]
  · intro s h
    rw [irbRead_consumed s h, parity_one_plus]

/-- Witness for C6 at a block with an even-length name (length 2, so `1+2` is
odd and a padding byte is present) and a 3-byte payload (odd, padded). -/
theorem c6_witness :
    (ImageResourceBlock.mk [0, 0] [0x41, 0x42] [1, 2, 3]).image_resource_id.length
        = 2 ∧
    (ImageResourceBlock.mk [0, 0] [0x41, 0x42] [1, 2, 3]).name.length ≤ 255 ∧
    (irbWriteBytes ⟨[0, 0], [0x41, 0x42], [1, 2, 3]⟩).length =
      11 + 2 + (if (1 + 2) % 2 = 1 then 1 else 0) + 3 +
        (if (3 : Nat) % 2 = 1 then 1 else 0) :=
  ⟨by decide, by decide,
    (c6_amended_padding_parity ⟨[0, 0], [0x41, 0x42], [1, 2, 3]⟩
      (by decide) (by decide)).1⟩

end Psd
